import Mathlib

/-!
Shallow embedding of the product-snap asynchronous job pipeline:
the job record (backend/app/models/job.py), the rate/concurrency ledger
(backend/app/services/rate_limit_service.py), the Redis job queue
(rpush in backend/app/routers/jobs.py, lpop in backend/app/worker.py),
the worker state machine (process_job in backend/app/worker.py), the
stale-job reaper (check_stale_jobs in backend/app/worker.py) and the
generation client's polling fallback
(backend/app/services/nano_banana_client.py).
-/

namespace ProductSnap

/-- JobStatus enum from backend/app/models/job.py. -/
inductive JobStatus where
  | pending
  | queued
  | processing
  | completed
  | failed
  | cancelled
deriving DecidableEq, Repr

/-- The Job row (backend/app/models/job.py).  Timestamps are seconds as
integers; optional columns are `Option`.  `result_urls` defaults to the
empty list, `progress` to 0 (the column is stringly typed in the schema
but holds a number). -/
structure Job where
  id : String
  user_id : String
  status : JobStatus
  result_urls : List String
  thumbnail_url : Option String
  error_message : Option String
  progress : Nat
  processing_time_seconds : Option Int
  created_at : Int
  started_at : Option Int
  completed_at : Option Int
deriving DecidableEq, Repr

/-- Settings fields consumed by RateLimitService.get_plan_limits
(backend/app/core/config.py lines 83-88). -/
structure Settings where
  FREE_JOBS_PER_DAY : Nat
  FREE_CONCURRENT_JOBS : Nat
  PERSONAL_JOBS_PER_MONTH : Nat
  PERSONAL_CONCURRENT_JOBS : Nat
  PRO_JOBS_PER_MONTH : Nat
  PRO_CONCURRENT_JOBS : Nat

/-- The defaults declared in backend/app/core/config.py. -/
def defaultSettings : Settings :=
  { FREE_JOBS_PER_DAY := 5
    FREE_CONCURRENT_JOBS := 1
    PERSONAL_JOBS_PER_MONTH := 100
    PERSONAL_CONCURRENT_JOBS := 3
    PRO_JOBS_PER_MONTH := 500
    PRO_CONCURRENT_JOBS := 5 }

/-- SubscriptionPlan values used by the rate limiter
(backend/app/models/subscription.py). -/
inductive SubscriptionPlan where
  | free
  | basic_monthly
  | basic_yearly
  | pro_monthly
  | pro_yearly
deriving DecidableEq, Repr

/-- The dict returned by RateLimitService.get_plan_limits: the free branch
carries the key jobs_total, the paid branches carry jobs_per_month; both
carry concurrent_jobs and period. -/
structure PlanLimits where
  jobs_total : Option Nat
  jobs_per_month : Option Nat
  concurrent_jobs : Nat
  period : String
deriving DecidableEq, Repr

/-- RateLimitService.get_plan_limits (rate_limit_service.py lines 13-38). -/
def get_plan_limits (st : Settings) (plan : SubscriptionPlan) : PlanLimits :=
  match plan with
  | .free =>
      { jobs_total := some st.FREE_JOBS_PER_DAY
        jobs_per_month := none
        concurrent_jobs := st.FREE_CONCURRENT_JOBS
        period := "total" }
  | .basic_monthly | .basic_yearly =>
      { jobs_total := none
        jobs_per_month := some st.PERSONAL_JOBS_PER_MONTH
        concurrent_jobs := st.PERSONAL_CONCURRENT_JOBS
        period := "month" }
  | .pro_monthly | .pro_yearly =>
      { jobs_total := none
        jobs_per_month := some st.PRO_JOBS_PER_MONTH
        concurrent_jobs := st.PRO_CONCURRENT_JOBS
        period := "month" }

/-- The max_jobs bound selected by check_job_limit: limits["jobs_total"]
for the free plan (always present there), limits.get("jobs_per_month", 0)
otherwise (rate_limit_service.py lines 45-51). -/
def max_jobs_of (st : Settings) (plan : SubscriptionPlan) : Nat :=
  if plan = .free then (get_plan_limits st plan).jobs_total.getD 0
  else (get_plan_limits st plan).jobs_per_month.getD 0

/-- The denial reason built at rate_limit_service.py lines 57-58. -/
def usage_reason (st : Settings) (plan : SubscriptionPlan) : String :=
  let limits := get_plan_limits st plan
  let period_text := if limits.period = "total" then "total" else "per " ++ limits.period
  "Usage limit exceeded (" ++ toString (max_jobs_of st plan) ++ " jobs " ++ period_text ++ ")"

/-- The denial reason built at rate_limit_service.py line 66. -/
def concurrent_reason (st : Settings) (plan : SubscriptionPlan) : String :=
  "Concurrent job limit exceeded (" ++ toString (get_plan_limits st plan).concurrent_jobs ++ " jobs)"

/-- RateLimitService.check_job_limit (rate_limit_service.py lines 40-68).
`current_usage` and `concurrent_jobs` are the integers read back from
Redis for the period key and the concurrent key (a missing key reads
as 0). -/
def check_job_limit (st : Settings) (plan : SubscriptionPlan)
    (current_usage concurrent_jobs : Int) : Bool × String :=
  let limits := get_plan_limits st plan
  if current_usage ≥ (max_jobs_of st plan : Int) then
    (false, usage_reason st plan)
  else if concurrent_jobs ≥ (limits.concurrent_jobs : Int) then
    (false, concurrent_reason st plan)
  else
    (true, "")

/-- Redis INCR as used by increment_concurrent
(rate_limit_service.py lines 83-86). -/
def increment_concurrent (c : Int) : Int := c + 1

/-- decrement_concurrent (rate_limit_service.py lines 88-94): DECR the
key, then overwrite with 0 if the result went negative. -/
def decrement_concurrent (c : Int) : Int :=
  let count := c - 1
  if count < 0 then 0 else count

/-- One ledger call against the per-user concurrent counter. -/
inductive CounterOp where
  | incr
  | decr
deriving DecidableEq, Repr

def applyCounterOp (c : Int) : CounterOp → Int
  | .incr => increment_concurrent c
  | .decr => decrement_concurrent c

/-- The counter value after a sequence of increment/decrement calls,
starting from `c` (a fresh key reads as 0). -/
def runCounterOps (c : Int) (ops : List CounterOp) : Int :=
  ops.foldl applyCounterOp c

/-- Redis RPUSH on the job_queue list (routers/jobs.py line 216,
worker.py line 298): append the id at the tail. -/
def rpush (q : List String) (job_id : String) : List String := q ++ [job_id]

/-- Redis LPOP on the job_queue list (worker.py line 262): pop the head,
non-blocking; on an empty list return nothing and leave it empty. -/
def lpop (q : List String) : Option String × List String :=
  match q with
  | [] => (none, [])
  | x :: rest => (some x, rest)

/-- Outcome of the thumbnail step (worker.py lines 142-153), reached only
when at least one result url was stored: `raise` models an exception
from download/thumbnail/upload (caught by the outer per-job handler),
`skip` models storage_service.download_file returning nothing, `ok`
a stored thumbnail url. -/
inductive ThumbOutcome where
  | raise (msg : String)
  | skip
  | ok (url : String)
deriving DecidableEq, Repr

/-- Outcome of the generation-and-store phase of process_job
(worker.py lines 97-140): `raise` models an exception from create_job or
the polling fallback; `ok stored thumb` models a run where generation
returned one base64 image per entry of `stored`, each entry being
`some url` when its decode+upload succeeded and `none` when it raised and
was skipped (lines 139-140), with `thumb` the thumbnail step's outcome. -/
inductive GenOutcome where
  | raise (msg : String)
  | ok (stored : List (Option String)) (thumb : ThumbOutcome)
deriving DecidableEq, Repr

/-- The success epilogue of process_job (worker.py lines 155-165):
status COMPLETED, result_urls stored, completed_at stamped, progress 100,
processing time derived from started_at (always just set). -/
def completeJob (result_urls : List String) (t1 : Int) (j : Job) : Job :=
  { j with
      status := .completed
      result_urls := result_urls
      completed_at := some t1
      progress := 100
      processing_time_seconds := some (t1 - (j.started_at.getD 0)) }

/-- The exception handler of process_job (worker.py lines 181-186):
status FAILED, the error text stored, completed_at stamped. -/
def failJob (msg : String) (t1 : Int) (j : Job) : Job :=
  { j with
      status := .failed
      error_message := some msg
      completed_at := some t1 }

/-- process_job on a popped id whose Job and User rows were both found
(worker.py lines 67-203).  It transitions the job to PROCESSING and
stamps started_at (lines 70-72), increments the user's concurrent
counter (line 75), runs generation/storage under the inner try, marks
COMPLETED or FAILED, and in the finally block decrements the concurrent
counter once (line 201).  Thumbnail creation happens only when at least
one result url was stored (line 143); an exception there is caught by
the same outer handler.  Returns the updated job row and concurrent
counter. -/
def process_job_found (g : GenOutcome) (t0 t1 : Int) (j : Job) (conc : Int) :
    Job × Int :=
  let j1 : Job := { j with status := .processing, started_at := some t0 }
  let c1 := increment_concurrent conc
  let j2 : Job :=
    match g with
    | .raise msg => failJob msg t1 j1
    | .ok stored thumb =>
        let result_urls := stored.filterMap id
        if result_urls.isEmpty then
          completeJob result_urls t1 j1
        else
          match thumb with
          | .raise msg => failJob msg t1 j1
          | .skip => completeJob result_urls t1 j1
          | .ok url => completeJob result_urls t1 { j1 with thumbnail_url := some url }
  (j2, decrement_concurrent c1)

/-- The durable state the worker and reaper share: the Job table, the
job_queue Redis list, and the per-user concurrent counters. -/
structure WorkerState where
  jobs : List Job
  queue : List String
  concurrent : String → Int

/-- The staleness threshold of check_stale_jobs: 15 minutes, in
seconds (worker.py line 287). -/
def staleThreshold : Int := 900

/-- The filter of the reaper's query (worker.py lines 288-291): status
PROCESSING and started_at strictly before now minus the threshold (a
NULL started_at never satisfies the SQL comparison). -/
def isStale (now : Int) (j : Job) : Bool :=
  j.status == JobStatus.processing &&
    (match j.started_at with
     | some t => decide (t < now - staleThreshold)
     | none => false)

/-- The per-stale-job action of the reaper (worker.py line 296): reset
status to QUEUED; no other column is touched. -/
def resetStale (j : Job) : Job := { j with status := .queued }

/-- One sweep of check_stale_jobs (worker.py lines 286-298): every
PROCESSING job older than the threshold is reset to QUEUED and its id
rpush-ed onto job_queue; nothing else changes, and no concurrent counter
is touched. -/
def check_stale_jobs (now : Int) (s : WorkerState) : WorkerState :=
  let stale := s.jobs.filter (isStale now)
  { jobs := s.jobs.map (fun j => if isStale now j then resetStale j else j)
    queue := s.queue ++ stale.map Job.id
    concurrent := s.concurrent }

/-- IMAGE_GENERATION_MODE of the nano banana client: mock or live. -/
inductive GenerationMode where
  | mock
  | live
deriving DecidableEq, Repr

/-- The dict poll_until_complete returns: a status string plus the
generated_images list (absent keys read as the empty list, as the
worker's result.get("generated_images", []) does). -/
structure PollResponse where
  status : String
  generated_images : List String
deriving DecidableEq, Repr

/-- Possible terminations of poll_until_complete: a returned response or
a raised timeout error. -/
inductive PollOutcome where
  | response (r : PollResponse)
  | timeoutError
deriving DecidableEq, Repr

/-- poll_until_complete (nano_banana_client.py lines 315-336).  In mock
mode it sleeps once for a random 20-30 s and returns get_job_status,
which always reports status completed with one mock image.  In live
mode it immediately returns status completed without consulting the
job at all.  No branch compares elapsed time against max_wait_seconds
and no branch raises a timeout. -/
def poll_until_complete (mode : GenerationMode) (mock_image : String)
    (max_wait_seconds poll_interval : Nat) : PollOutcome :=
  match mode with
  | .mock => .response { status := "completed", generated_images := [mock_image] }
  | .live => .response { status := "completed", generated_images := [] }

/-- State of a single job's pipeline: its row, whether its id currently
sits on job_queue, and its owner's concurrent counter. -/
structure PipelineState where
  job : Job
  onQueue : Bool
  concurrent : Int
deriving DecidableEq, Repr

/-- Atomic operations of the worker loop and the reaper on one job:
`run` pops the id (worker.py line 262) and drives process_job to its
end; `crash` pops the id, commits PROCESSING and started_at and
increments the concurrent counter, then the worker dies before
finishing (the situation the reaper exists to recover); `reap` is one
sweep of check_stale_jobs restricted to this job. -/
inductive WorkerOp where
  | run (g : GenOutcome) (t0 t1 : Int)
  | crash (t0 : Int)
  | reap (now : Int)

def applyOp (s : PipelineState) : WorkerOp → PipelineState
  | .run g t0 t1 =>
      if s.onQueue then
        let r := process_job_found g t0 t1 s.job s.concurrent
        { job := r.1, onQueue := false, concurrent := r.2 }
      else s
  | .crash t0 =>
      if s.onQueue then
        { job := { s.job with status := .processing, started_at := some t0 }
          onQueue := false
          concurrent := increment_concurrent s.concurrent }
      else s
  | .reap now =>
      if isStale now s.job then
        { job := resetStale s.job, onQueue := true, concurrent := s.concurrent }
      else s

def runOps (s : PipelineState) (ops : List WorkerOp) : PipelineState :=
  ops.foldl applyOp s

/-- A job row as created by the API on upload acceptance
(routers/jobs.py lines 197-209): status QUEUED, empty outputs, no
error, no started_at/completed_at. -/
def initialJob (id user_id : String) (t : Int) : Job :=
  { id := id
    user_id := user_id
    status := .queued
    result_urls := []
    thumbnail_url := none
    error_message := none
    progress := 0
    processing_time_seconds := none
    created_at := t
    started_at := none
    completed_at := none }

/-- Pipeline state right after job creation: the row exists, its id was
rpush-ed onto job_queue, the owner's concurrent counter reads c. -/
def initialState (id user_id : String) (t : Int) (c : Int) : PipelineState :=
  { job := initialJob id user_id t, onQueue := true, concurrent := c }

/-! ## Theorems -/

/-- C3: check_job_limit denies with the usage reason whenever the usage
counter is at or above the plan's max-jobs bound (so exactly-at-limit is
denied), this usage check fires before the concurrency check (the usage
reason is returned even when concurrency is also over its limit), a user
at or above max-concurrent is denied even with usage headroom, and a
user below both bounds is allowed. -/
theorem check_job_limit_admission (st : Settings) (plan : SubscriptionPlan)
    (u c : Int) :
    ((max_jobs_of st plan : Int) ≤ u →
       check_job_limit st plan u c = (false, usage_reason st plan))
  ∧ (u < (max_jobs_of st plan : Int) →
       ((get_plan_limits st plan).concurrent_jobs : Int) ≤ c →
       check_job_limit st plan u c = (false, concurrent_reason st plan))
  ∧ (u < (max_jobs_of st plan : Int) →
       c < ((get_plan_limits st plan).concurrent_jobs : Int) →
       check_job_limit st plan u c = (true, "")) := by
  refine ⟨fun h1 => ?_, fun h1 h2 => ?_, fun h1 h2 => ?_⟩
  · simp [check_job_limit, ge_iff_le, h1]
  · simp [check_job_limit, ge_iff_le, h2]
    omega
  · rw [check_job_limit, if_neg (by omega), if_neg (by omega)]

/-- Witness for C3 at the shipped settings: a free-tier user with usage 5
(the limit) is denied, and one with usage 4 and no concurrent job is
allowed. -/
theorem check_job_limit_admission_witness :
    check_job_limit defaultSettings .free 5 0 = (false, usage_reason defaultSettings .free)
  ∧ check_job_limit defaultSettings .free 4 0 = (true, "") :=
  ⟨(check_job_limit_admission defaultSettings .free 5 0).1 (by decide),
   (check_job_limit_admission defaultSettings .free 4 0).2.2 (by decide) (by decide)⟩

/-- C5: starting from a fresh counter (a missing Redis key reads as 0),
any sequence of increment_concurrent / decrement_concurrent calls —
including a decrement with no prior increment — leaves the concurrent
counter non-negative, because decrement_concurrent clamps to zero. -/
theorem concurrent_counter_never_negative (ops : List CounterOp) :
    0 ≤ runCounterOps 0 ops := by
  suffices h : ∀ ops : List CounterOp, ∀ c : Int, 0 ≤ c → 0 ≤ runCounterOps c ops from
    h ops 0 le_rfl
  intro ops
  induction ops with
  | nil => intro c hc; simpa [runCounterOps] using hc
  | cons op rest ih =>
      intro c hc
      have hstep : 0 ≤ applyCounterOp c op := by
        cases op <;> simp [applyCounterOp, increment_concurrent, decrement_concurrent] <;> omega
      simpa [runCounterOps] using ih (applyCounterOp c op) hstep

/-- C6: the job queue is strict global FIFO — rpush appends at the tail,
lpop pops the head and is non-blocking, returning nothing on the empty
list; from an empty queue, after enqueuing A then B, dequeue yields A,
then B, then nothing. -/
theorem queue_fifo_order (A B : String) :
    lpop [] = (none, [])
  ∧ rpush (rpush [] A) B = [A, B]
  ∧ lpop (rpush (rpush [] A) B) = (some A, [B])
  ∧ lpop [B] = (some B, [])
  ∧ (∀ q x, rpush q x = q ++ [x]) := by
  refine ⟨rfl, rfl, rfl, rfl, fun q x => rfl⟩

/-- C4: for a popped job whose Job and User rows were found, process_job
increments and then (in its finally block) decrements the user's
concurrent counter exactly once, whether the run ends COMPLETED or
FAILED; since the pre-job counter is non-negative, the counter returns
exactly to its pre-job value. -/
theorem process_job_concurrent_balanced (g : GenOutcome) (t0 t1 : Int)
    (j : Job) (c : Int) (hc : 0 ≤ c) :
    (process_job_found g t0 t1 j c).2
      = decrement_concurrent (increment_concurrent c)
  ∧ (process_job_found g t0 t1 j c).2 = c := by
  constructor
  · rfl
  · simp [process_job_found, increment_concurrent, decrement_concurrent]
    omega

/-- Witness for C4: a concrete failing run (generation raises) on a fresh
job with pre-job counter 2 leaves the counter at 2. -/
theorem process_job_concurrent_balanced_witness :
    (process_job_found (.raise "boom") 0 10 (initialJob "j1" "u1" 0) 2).2 = 2 :=
  (process_job_concurrent_balanced (.raise "boom") 0 10 (initialJob "j1" "u1" 0) 2
    (by decide)).2

/-- The reaper's query filter, characterised: a job is selected exactly
when its status is PROCESSING and its started_at is set and strictly
older than now minus the 15-minute threshold. -/
theorem isStale_iff (now : Int) (j : Job) :
    isStale now j = true ↔
      j.status = .processing ∧ ∃ t, j.started_at = some t ∧ t < now - staleThreshold := by
  cases h : j.started_at <;> simp [isStale, h]

/-- C7: after one reaper sweep, every job that was PROCESSING with
started_at older than the 15-minute threshold appears with status reset
to QUEUED and its id pushed onto the queue; a PROCESSING job within the
threshold is still present unchanged; and the sweep leaves every user's
concurrent counter exactly as it was (no decrement). -/
theorem reaper_sweep_resets_stale (now : Int) (s : WorkerState) (j : Job) (t : Int)
    (hj : j ∈ s.jobs) (hp : j.status = .processing) (hst : j.started_at = some t) :
    (t < now - staleThreshold →
       resetStale j ∈ (check_stale_jobs now s).jobs
     ∧ (resetStale j).status = .queued
     ∧ j.id ∈ (check_stale_jobs now s).queue)
  ∧ (now - staleThreshold ≤ t → j ∈ (check_stale_jobs now s).jobs)
  ∧ (check_stale_jobs now s).concurrent = s.concurrent := by
  refine ⟨fun hlt => ?_, fun hge => ?_, rfl⟩
  · have hs : isStale now j = true := (isStale_iff now j).mpr ⟨hp, t, hst, hlt⟩
    refine ⟨?_, rfl, ?_⟩
    · exact List.mem_map.mpr ⟨j, hj, by rw [if_pos hs]⟩
    · exact List.mem_append_right _
        (List.mem_map.mpr ⟨j, List.mem_filter.mpr ⟨hj, hs⟩, rfl⟩)
  · have hs : isStale now j = false := by
      apply Bool.eq_false_iff.mpr
      intro hc
      obtain ⟨-, t2, ht2, hlt2⟩ := (isStale_iff now j).mp hc
      rw [hst] at ht2
      cases ht2
      omega
    exact List.mem_map.mpr ⟨j, hj, by rw [if_neg (by simp [hs])]⟩

/-- A concrete stale PROCESSING job: started at time 0. -/
def staleJob : Job :=
  { initialJob "stale-1" "u1" 0 with status := .processing, started_at := some 0 }

/-- A concrete fresh PROCESSING job: started at time 950 (inside the
15-minute window when now = 1000). -/
def freshJob : Job :=
  { initialJob "fresh-1" "u2" 0 with status := .processing, started_at := some 950 }

/-- A concrete shared state holding one stale and one fresh PROCESSING
job and a non-empty queue. -/
def sampleState : WorkerState :=
  { jobs := [staleJob, freshJob], queue := ["other-1"], concurrent := fun _ => 1 }

/-- Witness for C7 at now = 1000 on sampleState: the stale job is reset
to QUEUED and enqueued, the fresh job survives unchanged, counters are
untouched. -/
theorem reaper_sweep_resets_stale_witness :
    (resetStale staleJob ∈ (check_stale_jobs 1000 sampleState).jobs
     ∧ (resetStale staleJob).status = .queued
     ∧ staleJob.id ∈ (check_stale_jobs 1000 sampleState).queue)
  ∧ freshJob ∈ (check_stale_jobs 1000 sampleState).jobs :=
  ⟨(reaper_sweep_resets_stale 1000 sampleState staleJob 0 (by decide) (by decide)
      (by decide)).1 (by decide),
   (reaper_sweep_resets_stale 1000 sampleState freshJob 950 (by decide) (by decide)
      (by decide)).2.1 (by decide)⟩

/-- C10 (frame): one reaper sweep preserves the number of job rows,
leaves every job that is not (PROCESSING with started_at older than the
threshold) exactly unchanged at its position — in particular any QUEUED
job, whether or not its id is still on the queue — and every id on the
post-sweep queue was either already on the queue or belongs to a job
that was PROCESSING and stale; no other job is ever re-enqueued. -/
theorem reaper_sweep_frame (now : Int) (s : WorkerState) :
    (check_stale_jobs now s).jobs.length = s.jobs.length
  ∧ (∀ i (h1 : i < s.jobs.length) (h2 : i < (check_stale_jobs now s).jobs.length),
       ¬ ((s.jobs.get ⟨i, h1⟩).status = .processing ∧
            ∃ t, (s.jobs.get ⟨i, h1⟩).started_at = some t ∧ t < now - staleThreshold) →
       (check_stale_jobs now s).jobs.get ⟨i, h2⟩ = s.jobs.get ⟨i, h1⟩)
  ∧ (∀ x ∈ (check_stale_jobs now s).queue,
       x ∈ s.queue ∨
         ∃ j, j ∈ s.jobs ∧ j.status = .processing ∧
           (∃ t, j.started_at = some t ∧ t < now - staleThreshold) ∧ j.id = x) := by
  refine ⟨by simp [check_stale_jobs], fun i h1 h2 hnot => ?_, fun x hx => ?_⟩
  · simp only [List.get_eq_getElem] at hnot ⊢
    have hs : isStale now (s.jobs.get ⟨i, h1⟩) = false := by
      apply Bool.eq_false_iff.mpr
      intro hc
      exact hnot ((isStale_iff now _).mp hc)
    simp only [List.get_eq_getElem] at hs
    simp only [check_stale_jobs, List.getElem_map]
    rw [if_neg (by simp [hs])]
  · rcases List.mem_append.mp hx with hq | hm
    · exact Or.inl hq
    · obtain ⟨j, hjf, hid⟩ := List.mem_map.mp hm
      obtain ⟨hj, hs⟩ := List.mem_filter.mp hjf
      obtain ⟨hp, ht⟩ := (isStale_iff now j).mp hs
      exact Or.inr ⟨j, hj, hp, ht, hid⟩

/-- Witness for C10 on sampleState at now = 1000: the fresh PROCESSING
job at index 1 is unchanged, and the head of the pre-sweep queue is
accounted for. -/
theorem reaper_sweep_frame_witness :
    (check_stale_jobs 1000 sampleState).jobs.get ⟨1, by decide⟩
      = sampleState.jobs.get ⟨1, by decide⟩
  ∧ ("other-1" ∈ sampleState.queue ∨
       ∃ j, j ∈ sampleState.jobs ∧ j.status = .processing ∧
         (∃ t, j.started_at = some t ∧ t < 1000 - staleThreshold) ∧ j.id = "other-1") :=
  ⟨(reaper_sweep_frame 1000 sampleState).2.1 1 (by decide) (by decide)
      (fun h => by
        obtain ⟨-, t, ht, hlt⟩ := h
        have : t = 950 := by
          have hf : (sampleState.jobs.get ⟨1, by decide⟩).started_at = some 950 := by decide
          rw [hf] at ht
          cases ht
          rfl
        have hthr : staleThreshold = 900 := rfl
        omega),
   (reaper_sweep_frame 1000 sampleState).2.2 "other-1" (by decide)⟩

/-- C8 (code bug): poll_until_complete never raises a timeout, and in
fact returns a response whose status is "completed" for every mode and
every wait bound, without ever consulting the job's actual state — the
max_wait_seconds and poll_interval arguments are ignored. -/
theorem poll_until_complete_never_times_out (mode : GenerationMode)
    (img : String) (max_wait_seconds poll_interval : Nat) :
    poll_until_complete mode img max_wait_seconds poll_interval ≠ .timeoutError
  ∧ ∃ r, poll_until_complete mode img max_wait_seconds poll_interval = .response r
       ∧ r.status = "completed" := by
  cases mode <;> exact ⟨by simp [poll_until_complete], _, rfl, rfl⟩

/-- C1 (code bug): after a worker run in which generation produced zero
stored results (live Gemini returning no inline images, with the polling
fallback also returning none), the job record has status COMPLETED with
result_urls = [] and no error_message, so result_urls non-empty is not
equivalent to status = COMPLETED. -/
theorem completed_job_with_empty_results :
    (runOps (initialState "j1" "u1" 0 0) [.run (.ok [] .skip) 10 20]).job.status
        = .completed
  ∧ (runOps (initialState "j1" "u1" 0 0) [.run (.ok [] .skip) 10 20]).job.result_urls
        = []
  ∧ (runOps (initialState "j1" "u1" 0 0) [.run (.ok [] .skip) 10 20]).job.error_message
        = none
  ∧ ¬ ((runOps (initialState "j1" "u1" 0 0) [.run (.ok [] .skip) 10 20]).job.result_urls
          ≠ []
       ↔ (runOps (initialState "j1" "u1" 0 0) [.run (.ok [] .skip) 10 20]).job.status
          = .completed) := by
  refine ⟨rfl, rfl, rfl, fun h => ?_⟩
  exact absurd rfl (h.mpr rfl)

/-- C2 (code bug): a run in which generation returned two images but both
per-image store attempts raised (each skipped by the per-result handler)
ends with zero stored results, yet process_job marks the job COMPLETED,
not FAILED, stores no error text, and only stamps completed_at on the
success path. -/
theorem zero_stored_results_not_failed :
    (runOps (initialState "j2" "u2" 0 0) [.run (.ok [none, none] .skip) 10 20]).job.status
        = .completed
  ∧ (runOps (initialState "j2" "u2" 0 0) [.run (.ok [none, none] .skip) 10 20]).job.status
        ≠ .failed
  ∧ (runOps (initialState "j2" "u2" 0 0) [.run (.ok [none, none] .skip) 10 20]).job.error_message
        = none
  ∧ (runOps (initialState "j2" "u2" 0 0) [.run (.ok [none, none] .skip) 10 20]).job.result_urls
        = [] := by
  exact ⟨rfl, by decide, rfl, rfl⟩

/-- C9 (counterexample): a worker pops a job and crashes after committing
PROCESSING with started_at = 5; a later reaper sweep resets the job to
QUEUED while leaving started_at set, so started_at is set although the
status is in none of PROCESSING, COMPLETED, FAILED, CANCELLED; and when
the job is then re-processed, started_at is overwritten from 5 to 2000,
so it is not set exactly once across the lifecycle. -/
theorem started_at_lifecycle_counterexample :
    (runOps (initialState "j3" "u3" 0 0) [.crash 5, .reap 1000]).job.started_at = some 5
  ∧ (runOps (initialState "j3" "u3" 0 0) [.crash 5, .reap 1000]).job.status = .queued
  ∧ ¬ ((runOps (initialState "j3" "u3" 0 0) [.crash 5, .reap 1000]).job.started_at.isSome
           = true
       ↔ ((runOps (initialState "j3" "u3" 0 0) [.crash 5, .reap 1000]).job.status
             = .processing
          ∨ (runOps (initialState "j3" "u3" 0 0) [.crash 5, .reap 1000]).job.status
             = .completed
          ∨ (runOps (initialState "j3" "u3" 0 0) [.crash 5, .reap 1000]).job.status
             = .failed
          ∨ (runOps (initialState "j3" "u3" 0 0) [.crash 5, .reap 1000]).job.status
             = .cancelled))
  ∧ (runOps (initialState "j3" "u3" 0 0)
        [.crash 5, .reap 1000, .run (.raise "boom") 2000 2100]).job.started_at
      = some 2000 := by
  refine ⟨rfl, rfl, fun h => ?_, rfl⟩
  rcases h.mp rfl with h2 | h2 | h2 | h2 <;> cases h2

/-- Fields of the job row written by process_job on a found job:
started_at is stamped with the processing start time in every branch,
created_at is never touched, and the run ends COMPLETED or FAILED. -/
theorem process_job_found_fields (g : GenOutcome) (t0 t1 : Int) (j : Job) (c : Int) :
    (process_job_found g t0 t1 j c).1.started_at = some t0
  ∧ (process_job_found g t0 t1 j c).1.created_at = j.created_at
  ∧ ((process_job_found g t0 t1 j c).1.status = .completed
     ∨ (process_job_found g t0 t1 j c).1.status = .failed) := by
  cases g with
  | raise m => exact ⟨rfl, rfl, Or.inr rfl⟩
  | ok stored thumb =>
      by_cases h : (stored.filterMap id).isEmpty <;>
        cases thumb <;>
        simp [process_job_found, completeJob, failJob, h]

/-- C9 (amended): across any sequence of worker-loop and reaper
operations from a freshly created job, created_at keeps the creation
time (it is set exactly once); started_at is set whenever the status is
PROCESSING, COMPLETED or FAILED; and once started_at is set, no single
operation ever clears it — though a stale-reset leaves it set on a
QUEUED job and re-processing re-stamps it, so started_at and
completed_at are set once per processing attempt rather than exactly
once. -/
theorem timestamps_amended (id uid : String) (t c : Int) (ops : List WorkerOp) :
    (runOps (initialState id uid t c) ops).job.created_at = t
  ∧ (((runOps (initialState id uid t c) ops).job.status = .processing
      ∨ (runOps (initialState id uid t c) ops).job.status = .completed
      ∨ (runOps (initialState id uid t c) ops).job.status = .failed) →
       (runOps (initialState id uid t c) ops).job.started_at.isSome = true)
  ∧ (∀ s1 : PipelineState, ∀ op : WorkerOp,
       s1.job.started_at.isSome = true →
       (applyOp s1 op).job.started_at.isSome = true) := by
  have hstep : ∀ (s1 : PipelineState) (op : WorkerOp),
      s1.job.started_at.isSome = true →
      (applyOp s1 op).job.started_at.isSome = true := by
    intro s1 op h
    cases op with
    | run g t0 t1 =>
        by_cases hq : s1.onQueue
        · simp [applyOp, hq, (process_job_found_fields g t0 t1 s1.job s1.concurrent).1]
        · simpa [applyOp, hq] using h
    | crash t0 =>
        by_cases hq : s1.onQueue
        · simp [applyOp, hq]
        · simpa [applyOp, hq] using h
    | reap now =>
        by_cases hs : isStale now s1.job <;>
          simp [applyOp, hs, resetStale] <;> simpa using h
  refine ⟨?_, ?_, hstep⟩
  all_goals
    have hinv : ∀ (ops : List WorkerOp) (s1 : PipelineState),
        (s1.job.created_at = t
         ∧ ((s1.job.status = .processing ∨ s1.job.status = .completed
             ∨ s1.job.status = .failed) → s1.job.started_at.isSome = true)) →
        ((runOps s1 ops).job.created_at = t
         ∧ (((runOps s1 ops).job.status = .processing
             ∨ (runOps s1 ops).job.status = .completed
             ∨ (runOps s1 ops).job.status = .failed) →
              (runOps s1 ops).job.started_at.isSome = true)) := by
      intro ops
      induction ops with
      | nil => intro s1 h; simpa [runOps] using h
      | cons op rest ih =>
          intro s1 h
          have hnext : (applyOp s1 op).job.created_at = t
              ∧ (((applyOp s1 op).job.status = .processing
                  ∨ (applyOp s1 op).job.status = .completed
                  ∨ (applyOp s1 op).job.status = .failed) →
                   (applyOp s1 op).job.started_at.isSome = true) := by
            cases op with
            | run g t0 t1 =>
                by_cases hq : s1.onQueue
                · refine ⟨?_, fun _ => ?_⟩
                  · simpa [applyOp, hq]
                      using (process_job_found_fields g t0 t1 s1.job s1.concurrent).2.1 ▸ h.1
                  · simp [applyOp, hq,
                      (process_job_found_fields g t0 t1 s1.job s1.concurrent).1]
                · simpa [applyOp, hq] using h
            | crash t0 =>
                by_cases hq : s1.onQueue
                · exact ⟨by simpa [applyOp, hq] using h.1, fun _ => by simp [applyOp, hq]⟩
                · simpa [applyOp, hq] using h
            | reap now =>
                by_cases hs : isStale now s1.job
                · refine ⟨by simpa [applyOp, hs, resetStale] using h.1, fun hc => ?_⟩
                  simp [applyOp, hs, resetStale] at hc
                · simpa [applyOp, hs] using h
          simpa [runOps] using ih (applyOp s1 op) hnext
  · exact (hinv ops (initialState id uid t c) (by simp [initialState, initialJob])).1
  · exact (hinv ops (initialState id uid t c) (by simp [initialState, initialJob])).2

/-- Witness for C9 amended: concretely, after a crash at time 5 the job
is PROCESSING and started_at is set, and created_at still holds the
creation time 7. -/
theorem timestamps_amended_witness :
    (runOps (initialState "j4" "u4" 7 0) [.crash 5]).job.created_at = 7
  ∧ (runOps (initialState "j4" "u4" 7 0) [.crash 5]).job.started_at.isSome = true :=
  ⟨(timestamps_amended "j4" "u4" 7 0 [.crash 5]).1,
   (timestamps_amended "j4" "u4" 7 0 [.crash 5]).2.1 (Or.inl (by decide))⟩

end ProductSnap
